import Mathlib

/-!
Verification of the `nexora` DNS management CLI (`src/dns.py`).

The program is a single-file Python CLI that synchronizes Cloudflare DNS
"A" records: `add` (create or update), `rm` (delete), `list`.  We give a
shallow embedding: the Cloudflare client calls are modelled by explicit
`ApiOutcome` oracle values passed in as parameters, `print` calls become
lines accumulated in a `Trace` (split into standard output and error
stream), API invocations are recorded as `ApiCall` values in the trace,
and `sys.exit(n)` becomes the `StepResult.exited n` result.
-/

namespace Nexora

/-- Model of a Python `datetime` value as used by `dns.py`: the only
operation the program applies is `isoformat()`, so we carry the ISO-8601
rendering directly. -/
structure Datetime where
  iso : String
deriving DecidableEq, Repr

/-- `datetime.isoformat()`: returns the ISO-8601 string of the timestamp. -/
def Datetime.isoformat (d : Datetime) : String := d.iso

/-- A DNS record as returned by the provider client (`cloudflare.types.dns.Record`).
`proxied` is `Optional[bool]` in the client library, hence `Option Bool` here;
the timestamps are `Optional[datetime]`. -/
structure Record where
  id : String
  type : String
  name : String
  content : String
  proxied : Option Bool
  ttl : Int
  created_on : Option Datetime
  modified_on : Option Datetime
deriving DecidableEq, Repr

/-- The provider response to a delete call (`RecordDeleteResponse`): the
program only reads its `id` field. -/
structure RecordDeleteResponse where
  id : String
deriving DecidableEq, Repr

/-- A network call made through the Cloudflare client.  `list` is the read
call issued by `get_all_dns_records`; `create`, `update` and `delete` are
the mutation calls. -/
inductive ApiCall where
  | list (zone_id : String)
  | create (zone_id record_type name content : String) (proxied : Bool)
  | update (zone_id dns_record_id record_type name content : String) (proxied : Bool)
  | delete (zone_id dns_record_id : String)
deriving DecidableEq, Repr

/-- `true` exactly for the mutating calls (create / update / delete). -/
def ApiCall.isMutation : ApiCall → Bool
  | .list _ => false
  | _ => true

/-- `true` exactly for create calls. -/
def ApiCall.isCreate : ApiCall → Bool
  | .create _ _ _ _ _ => true
  | _ => false

/-- `true` exactly for update calls. -/
def ApiCall.isUpdate : ApiCall → Bool
  | .update _ _ _ _ _ _ => true
  | _ => false

/-- `true` exactly for delete calls. -/
def ApiCall.isDelete : ApiCall → Bool
  | .delete _ _ => true
  | _ => false

/-- The observable effects of a run: lines printed to standard output,
lines printed to the error stream (`file=sys.stderr`), and the network
calls issued, each in program order. -/
structure Trace where
  out : List String
  err : List String
  calls : List ApiCall
deriving DecidableEq, Repr

def Trace.append (t u : Trace) : Trace :=
  ⟨t.out ++ u.out, t.err ++ u.err, t.calls ++ u.calls⟩

instance : Append Trace := ⟨Trace.append⟩

/-- A trace consisting of one standard-output line. -/
def outLine (s : String) : Trace := ⟨[s], [], []⟩

/-- A trace consisting of one error-stream line. -/
def errLine (s : String) : Trace := ⟨[], [s], []⟩

/-- The empty trace. -/
def Trace.nil : Trace := ⟨[], [], []⟩

/-- Result of a program fragment: either a value, or the process terminated
via `sys.exit code`. -/
inductive StepResult (α : Type) where
  | ok (value : α)
  | exited (code : Nat)
deriving DecidableEq, Repr

/-- Forget the returned value (Python handlers ignore the helpers' return
values). -/
def StepResult.discard : StepResult α → StepResult Unit
  | .ok _ => .ok ()
  | .exited c => .exited c

/-- Oracle for one Cloudflare client call: the Python code distinguishes
`APIError` from any other `Exception`, so the model does too. -/
inductive ApiOutcome (α : Type) where
  | success (value : α)
  | apiError (msg : String)
  | unexpectedError (msg : String)
deriving DecidableEq, Repr

/-- Python `f"{b}"` for a `bool`. -/
def pyBoolStr (b : Bool) : String := if b then "True" else "False"

/-- Python `f"{x}"` for an `Optional[bool]`. -/
def pyOptBoolStr : Option Bool → String
  | none => "None"
  | some b => pyBoolStr b

/-- Python `needle in hay` on strings: some contiguous slice of `hay`
equals `needle`. -/
def strContains (hay needle : String) : Bool :=
  (List.range (hay.toList.length + 1)).any
    (fun i => ((hay.toList.drop i).take needle.toList.length) == needle.toList)

/-- ASCII whitespace, the characters Python `str.strip()` removes (the
further Unicode whitespace code points never occur in this development). -/
def isSpaceChar (c : Char) : Bool :=
  c = ' ' || c = '\t' || c = '\n' || c = '\x0b' || c = '\x0c' || c = '\r'

/-- Models Python `value.strip()`: drop leading and trailing whitespace. -/
def pyStrip (s : String) : String :=
  String.mk (((s.toList.dropWhile isSpaceChar).reverse.dropWhile isSpaceChar).reverse)

/-- `get_env(key)` (dns.py:9-14): read `key` from the environment; if it is
unset or whitespace-only, print the diagnostic to the error stream and
`sys.exit(1)`, otherwise return the value. -/
def get_env (env : String → Option String) (key : String) : Trace × StepResult String :=
  match env key with
  | none => (errLine s!"Error: Environment variable {key} cannot be empty.", .exited 1)
  | some value =>
      if pyStrip value = "" then
        (errLine s!"Error: Environment variable {key} cannot be empty.", .exited 1)
      else
        (Trace.nil, .ok value)

/-- The three values read by `load_config` (dns.py:16-21). -/
structure Config where
  email : String
  api_key : String
  zone_id : String
deriving DecidableEq, Repr

/-- `load_config()` (dns.py:16-21): reads the three environment variables in
order via `get_env`; `get_env` terminates the process at the first violation. -/
def load_config (env : String → Option String) : Trace × StepResult Config :=
  match get_env env "CLOUDFLARE_EMAIL" with
  | (t1, .exited c) => (t1, .exited c)
  | (t1, .ok email) =>
      match get_env env "CLOUDFLARE_API_KEY" with
      | (t2, .exited c) => (t1 ++ t2, .exited c)
      | (t2, .ok api_key) =>
          match get_env env "ZONE_ID" with
          | (t3, .exited c) => (t1 ++ t2 ++ t3, .exited c)
          | (t3, .ok zone_id) => (t1 ++ t2 ++ t3, .ok ⟨email, api_key, zone_id⟩)

/-- `get_all_dns_records(cf, zone_id)` (dns.py:23-33): one list call; on
success return the materialized record list, on `APIError` or any other
exception print a diagnostic to the error stream and `sys.exit(1)`. -/
def get_all_dns_records (zone_id : String) (outcome : ApiOutcome (List Record)) :
    Trace × StepResult (List Record) :=
  match outcome with
  | .success records_list => (⟨[], [], [.list zone_id]⟩, .ok records_list)
  | .apiError e =>
      (⟨[], [s!"Error fetching DNS records: {e}"], [.list zone_id]⟩, .exited 1)
  | .unexpectedError e =>
      (⟨[], [s!"An unexpected error occurred while fetching DNS records: {e}"],
        [.list zone_id]⟩, .exited 1)

/-- `find_dns_record(name, record_type, records)` (dns.py:36-40): linear scan
returning the first record whose `name` and `type` both equal the query, else
`None`. -/
def find_dns_record (name record_type : String) (records : List Record) : Option Record :=
  match records with
  | [] => none
  | record :: rest =>
      if record.name = name ∧ record.type = record_type then some record
      else find_dns_record name record_type rest

/-- `create_dns_record` (dns.py:42-61).  Note that on an `APIError` whose text
contains "already exists" the hint line is printed WITHOUT `file=sys.stderr`,
i.e. to standard output. -/
def create_dns_record (zone_id record_type name content : String) (proxied : Bool)
    (outcome : ApiOutcome Record) : Trace × StepResult Record :=
  let proxiedStr := pyBoolStr proxied
  let attempt :=
    s!"Attempting to create {record_type} record for {name} -> {content} (Proxied: {proxiedStr})..."
  let call : ApiCall := .create zone_id record_type name content proxied
  match outcome with
  | .success created_record =>
      let createdId := created_record.id
      (⟨[attempt, s!"Successfully created record (ID: {createdId})."], [], [call]⟩,
        .ok created_record)
  | .apiError e =>
      (⟨attempt ::
          (if strContains e "already exists" then
            ["Hint: A record with this name and type might already exist."]
          else []),
        [s!"Error creating DNS record: {e}"], [call]⟩, .exited 1)
  | .unexpectedError e =>
      (⟨[attempt], [s!"An unexpected error occurred while creating DNS record: {e}"],
        [call]⟩, .exited 1)

/-- `update_dns_record` (dns.py:63-81): one update call addressed by the
existing record identifier; errors are fatal. -/
def update_dns_record (zone_id dns_record_id record_type name content : String)
    (proxied : Bool) (outcome : ApiOutcome Record) : Trace × StepResult Record :=
  let proxiedStr := pyBoolStr proxied
  let attempt :=
    s!"Attempting to update record {name} (ID: {dns_record_id}) -> {content} (Proxied: {proxiedStr})..."
  let call : ApiCall := .update zone_id dns_record_id record_type name content proxied
  match outcome with
  | .success updated_record =>
      (⟨[attempt, "Successfully updated record."], [], [call]⟩, .ok updated_record)
  | .apiError e =>
      (⟨[attempt], [s!"Error updating DNS record: {e}"], [call]⟩, .exited 1)
  | .unexpectedError e =>
      (⟨[attempt], [s!"An unexpected error occurred while updating DNS record: {e}"],
        [call]⟩, .exited 1)

/-- `delete_dns_record` (dns.py:83-103): one delete call; a response that is
falsy or whose `id` differs from the request is a soft warning (returns
`False`, process continues); `APIError` or any other exception is fatal. -/
def delete_dns_record (zone_id dns_record_id record_name : String)
    (outcome : ApiOutcome (Option RecordDeleteResponse)) : Trace × StepResult Bool :=
  let attempt := s!"Attempting to delete record {record_name} (ID: {dns_record_id})..."
  let call : ApiCall := .delete zone_id dns_record_id
  let warning :=
    s!"Warning: Delete operation completed but response format was unexpected for {record_name}. Please verify."
  match outcome with
  | .success delete_result =>
      match delete_result with
      | some r =>
          if r.id = dns_record_id then
            (⟨[attempt, s!"Successfully deleted record {record_name}."], [], [call]⟩, .ok true)
          else
            (⟨[attempt], [warning], [call]⟩, .ok false)
      | none => (⟨[attempt], [warning], [call]⟩, .ok false)
  | .apiError e =>
      (⟨[attempt], [s!"Error deleting DNS record: {e}"], [call]⟩, .exited 1)
  | .unexpectedError e =>
      (⟨[attempt], [s!"An unexpected error occurred while deleting DNS record: {e}"],
        [call]⟩, .exited 1)

/-- The argparse namespace for the `add` subcommand: two positionals and the
`--proxy` store_true flag (default `False`, dns.py:184-187). -/
structure AddArgs where
  record_name : String
  ip_address : String
  proxy : Bool
deriving DecidableEq, Repr

/-- `handle_add_or_update(cf, zone_id, args)` (dns.py:106-126): fetch all
records, find the "A" record with the requested name, then branch once:
identical content and proxied flag → no-op; found but different → update with
the existing id; not found → create. -/
def handle_add_or_update (zone_id : String) (args : AddArgs)
    (listOutcome : ApiOutcome (List Record)) (createOutcome : ApiOutcome Record)
    (updateOutcome : ApiOutcome Record) : Trace × StepResult Unit :=
  let record_name := args.record_name
  let ip_address := args.ip_address
  let proxied := args.proxy
  let record_type := "A"
  let fetch := outLine s!"Fetching existing records for zone {zone_id}..."
  match get_all_dns_records zone_id listOutcome with
  | (t1, .exited c) => (fetch ++ t1, .exited c)
  | (t1, .ok all_records) =>
      let search :=
        outLine s!"Searching for existing {record_type} record named \x27{record_name}\x27..."
      match find_dns_record record_name record_type all_records with
      | some existing_record =>
          let existingId := existing_record.id
          let existingIp := existing_record.content
          let existingProxied := pyOptBoolStr existing_record.proxied
          let found :=
            outLine s!"Found existing record (ID: {existingId}, IP: {existingIp}, Proxied: {existingProxied})."
          if existing_record.content = ip_address ∧ existing_record.proxied = some proxied then
            (fetch ++ t1 ++ search ++ found ++
              outLine "Record already exists with the correct IP and proxy status. No changes needed.",
              .ok ())
          else
            let (t2, res) := update_dns_record zone_id existing_record.id record_type
              record_name ip_address proxied updateOutcome
            (fetch ++ t1 ++ search ++ found ++ t2, res.discard)
      | none =>
          let creating :=
            outLine s!"No existing {record_type} record found for \x27{record_name}\x27. Creating new record..."
          let (t2, res) := create_dns_record zone_id record_type record_name ip_address
            proxied createOutcome
          (fetch ++ t1 ++ search ++ creating ++ t2, res.discard)

/-- `handle_remove(cf, zone_id, args)` (dns.py:128-143): fetch all records,
find the "A" record with the requested name; found → delete by its id, not
found → diagnostic naming the record to the error stream and `sys.exit(1)`. -/
def handle_remove (zone_id record_name : String)
    (listOutcome : ApiOutcome (List Record))
    (deleteOutcome : ApiOutcome (Option RecordDeleteResponse)) : Trace × StepResult Unit :=
  let record_type := "A"
  let fetch := outLine s!"Fetching existing records for zone {zone_id}..."
  match get_all_dns_records zone_id listOutcome with
  | (t1, .exited c) => (fetch ++ t1, .exited c)
  | (t1, .ok all_records) =>
      let search :=
        outLine s!"Searching for existing {record_type} record named \x27{record_name}\x27..."
      match find_dns_record record_name record_type all_records with
      | some existing_record =>
          let existingId := existing_record.id
          let found := outLine s!"Found record to delete (ID: {existingId})."
          let (t2, res) := delete_dns_record zone_id existing_record.id record_name deleteOutcome
          (fetch ++ t1 ++ search ++ found ++ t2, res.discard)
      | none =>
          (fetch ++ t1 ++ search ++
            errLine s!"Error: No {record_type} record found with the name \x27{record_name}\x27. Nothing to delete.",
            .exited 1)

/-- JSON values, the shape produced by the `list` handler before
serialization. -/
inductive Json where
  | null
  | bool (b : Bool)
  | num (n : Int)
  | str (s : String)
  | arr (elems : List Json)
  | obj (fields : List (String × Json))
deriving Repr

/-- The keys of a JSON object (empty for non-objects). -/
def Json.keys : Json → List String
  | .obj fields => fields.map Prod.fst
  | _ => []

/-- Minimal JSON string escaping (backslash and double quote). -/
def json_escape (s : String) : String :=
  String.mk (s.toList.foldr
    (fun c acc =>
      if c = '\\' then '\\' :: '\\' :: acc
      else if c = '"' then '\\' :: '"' :: acc
      else c :: acc) [])

mutual

/-- Models `json.dumps` from the Python standard library: a string rendering
of the JSON value (the `indent=2` pretty-printing is not modelled; no claim
depends on whitespace). -/
def json_dumps : Json → String
  | .null => "null"
  | .bool true => "true"
  | .bool false => "false"
  | .num n => toString n
  | .str s => "\"" ++ json_escape s ++ "\""
  | .arr elems => "[" ++ json_dumps_elems elems ++ "]"
  | .obj fields => "\x7b" ++ json_dumps_fields fields ++ "\x7d"

/-- Comma-separated rendering of array elements. -/
def json_dumps_elems : List Json → String
  | [] => ""
  | [e] => json_dumps e
  | e :: f :: rest => json_dumps e ++ ", " ++ json_dumps_elems (f :: rest)

/-- Comma-separated rendering of object members. -/
def json_dumps_fields : List (String × Json) → String
  | [] => ""
  | [(k, v)] => "\"" ++ json_escape k ++ "\": " ++ json_dumps v
  | (k, v) :: f :: rest =>
      "\"" ++ json_escape k ++ "\": " ++ json_dumps v ++ ", " ++ json_dumps_fields (f :: rest)

end

/-- The dictionary built for one record by `handle_list` (dns.py:155-164):
exactly the eight listed fields, timestamps via `isoformat()` when present
and `None` otherwise. -/
def output_record (record : Record) : Json :=
  Json.obj [
    ("id", Json.str record.id),
    ("type", Json.str record.type),
    ("name", Json.str record.name),
    ("content", Json.str record.content),
    ("proxied", match record.proxied with
      | none => Json.null
      | some b => Json.bool b),
    ("ttl", Json.num record.ttl),
    ("created_on", match record.created_on with
      | none => Json.null
      | some d => Json.str d.isoformat),
    ("modified_on", match record.modified_on with
      | none => Json.null
      | some d => Json.str d.isoformat)]

/-- `handle_list(cf, zone_id, args)` (dns.py:145-166): fetch all records; an
empty list prints the "No DNS records found for this zone." line, a non-empty
list prints `json.dumps` of the array of per-record dictionaries, all on
standard output. -/
def handle_list (zone_id : String) (listOutcome : ApiOutcome (List Record)) :
    Trace × StepResult Unit :=
  let fetch := outLine s!"Fetching existing records for zone {zone_id}..."
  match get_all_dns_records zone_id listOutcome with
  | (t1, .exited c) => (fetch ++ t1, .exited c)
  | (t1, .ok all_records) =>
      if all_records.isEmpty then
        (fetch ++ t1 ++ outLine "No DNS records found for this zone.", .ok ())
      else
        (fetch ++ t1 ++ outLine (json_dumps (Json.arr (all_records.map output_record))),
          .ok ())

/-- A parsed command line (the three argparse subcommands, dns.py:181-196). -/
inductive Action where
  | add (args : AddArgs)
  | rm (record_name : String)
  | list
deriving DecidableEq, Repr

/-- Model of the argparse configuration (dns.py:181-197): subcommand required;
`add` takes `record_name`, `ip_address` and the optional `--proxy` store_true
flag (default `False`); `rm` takes `record_name`; `list` takes nothing.
`none` stands for the usage-error exit argparse performs itself. -/
def parse_args (argv : List String) : Option Action :=
  match argv with
  | "add" :: rest =>
      let proxy := rest.contains "--proxy"
      match rest.filter (fun a => a ≠ "--proxy") with
      | [record_name, ip_address] => some (.add ⟨record_name, ip_address, proxy⟩)
      | _ => none
  | ["rm", record_name] => some (.rm record_name)
  | ["list"] => some .list
  | _ => none

/-- The provider-response oracle for one invocation (at most one list call
and one mutation call are made, dns.py §5 of the spec). -/
structure ApiBehavior where
  listOutcome : ApiOutcome (List Record)
  createOutcome : ApiOutcome Record
  updateOutcome : ApiOutcome Record
  deleteOutcome : ApiOutcome (Option RecordDeleteResponse)

/-- Dispatch of `args.func(cf, config["ZONE_ID"], args)` (dns.py:198). -/
def run_action (zone_id : String) (api : ApiBehavior) : Action → Trace × StepResult Unit
  | .add args =>
      handle_add_or_update zone_id args api.listOutcome api.createOutcome api.updateOutcome
  | .rm record_name => handle_remove zone_id record_name api.listOutcome api.deleteOutcome
  | .list => handle_list zone_id api.listOutcome

/-- `main()` (dns.py:169-198): load the config from the environment (fails
fast), build the client (construction failure is not modelled: the
constructor only stores the credentials), parse the arguments (argparse
exits with status 2 on a usage error), then dispatch. -/
def main (env : String → Option String) (argv : List String) (api : ApiBehavior) :
    Trace × StepResult Unit :=
  match load_config env with
  | (t, .exited c) => (t, .exited c)
  | (t, .ok config) =>
      match parse_args argv with
      | none => (t, .exited 2)
      | some action =>
          let (t2, res) := run_action config.zone_id api action
          (t ++ t2, res)

/-! ## Sample data used by the witness theorems -/

/-- A concrete "A" record. -/
def recA : Record :=
  { id := "id-1", type := "A", name := "www.example.com", content := "1.2.3.4",
    proxied := some false, ttl := 300, created_on := none, modified_on := none }

/-- A concrete "TXT" record with the same name as `recA`. -/
def recB : Record :=
  { id := "id-2", type := "TXT", name := "www.example.com", content := "verify",
    proxied := none, ttl := 120, created_on := none, modified_on := none }

/-- A concrete "A" record whose `proxied` field is unset (`None`). -/
def recC : Record :=
  { id := "id-3", type := "A", name := "api.example.com", content := "5.6.7.8",
    proxied := none, ttl := 60,
    created_on := some ⟨"2024-01-01T00:00:00+00:00"⟩, modified_on := none }

/-! ## Generic lemmas about traces -/

@[simp] theorem Trace.append_eq (t u : Trace) :
    t ++ u = ⟨t.out ++ u.out, t.err ++ u.err, t.calls ++ u.calls⟩ := rfl

@[simp] theorem outLine_eq (s : String) : outLine s = ⟨[s], [], []⟩ := rfl

@[simp] theorem errLine_eq (s : String) : errLine s = ⟨[], [s], []⟩ := rfl

/-! ## C1: the record matcher -/

/-- C1: for every record list and query `(name, type)`, `find_dns_record`
returns the first element matching on both fields — there is a decomposition
`records = l1 ++ r :: l2` with every element of `l1` failing the test — and
returns `none` exactly when no element matches. -/
theorem find_dns_record_correct (name record_type : String) (records : List Record) :
    (∀ r, find_dns_record name record_type records = some r →
      r.name = name ∧ r.type = record_type ∧
      ∃ l1 l2, records = l1 ++ r :: l2 ∧
        ∀ x ∈ l1, ¬(x.name = name ∧ x.type = record_type)) ∧
    (find_dns_record name record_type records = none ↔
      ∀ r ∈ records, ¬(r.name = name ∧ r.type = record_type)) := by
  induction records with
  | nil => simp [find_dns_record]
  | cons a rest ih =>
      by_cases h : a.name = name ∧ a.type = record_type
      · refine ⟨?_, ?_⟩
        · intro r hr
          rw [find_dns_record, if_pos h] at hr
          obtain rfl : a = r := by injection hr
          exact ⟨h.1, h.2, [], rest, rfl, by simp⟩
        · rw [find_dns_record, if_pos h]
          constructor
          · intro hc; simp at hc
          · intro hall; exact absurd h (hall a (List.mem_cons_self a rest))
      · refine ⟨?_, ?_⟩
        · intro r hr
          rw [find_dns_record, if_neg h] at hr
          obtain ⟨h1, h2, l1, l2, heq, hall⟩ := ih.1 r hr
          refine ⟨h1, h2, a :: l1, l2, by rw [heq]; rfl, ?_⟩
          intro x hx
          rcases List.mem_cons.mp hx with rfl | hx2
          · exact h
          · exact hall x hx2
        · rw [find_dns_record, if_neg h, ih.2]
          constructor
          · intro hall r hr
            rcases List.mem_cons.mp hr with rfl | hr2
            · exact h
            · exact hall r hr2
          · intro hall r hr
            exact hall r (List.mem_cons_of_mem a hr)

/-- Witness for C1: on the concrete list `[recB, recA]` (a "TXT" record with
the right name followed by the matching "A" record), the matcher's answer
`recA` satisfies the first-match decomposition. -/
theorem find_dns_record_correct_witness :
    recA.name = "www.example.com" ∧ recA.type = "A" ∧
    ∃ l1 l2, [recB, recA] = l1 ++ recA :: l2 ∧
      ∀ x ∈ l1, ¬(x.name = "www.example.com" ∧ x.type = "A") :=
  (find_dns_record_correct "www.example.com" "A" [recB, recA]).1 recA (by decide)

/-! ## C2, C3: the add workflow on an existing record -/

/-- When `r` is a matching record and no other record matches (the §3
invariant: at most one "A" record per name), the scan returns `r`. -/
theorem find_dns_record_of_mem_unique (name record_type : String) (records : List Record)
    (r : Record) (hmem : r ∈ records) (hn : r.name = name) (ht : r.type = record_type)
    (huniq : ∀ x ∈ records, x.name = name ∧ x.type = record_type → x = r) :
    find_dns_record name record_type records = some r := by
  induction records with
  | nil => cases hmem
  | cons a rest ih =>
      by_cases h : a.name = name ∧ a.type = record_type
      · rw [find_dns_record, if_pos h, huniq a (List.mem_cons_self a rest) h]
      · rw [find_dns_record, if_neg h]
        rcases List.mem_cons.mp hmem with rfl | hmem2
        · exact absurd ⟨hn, ht⟩ h
        · exact ih hmem2 (fun x hx => huniq x (List.mem_cons_of_mem a hx))

/-- When no record matches, the scan returns `none`. -/
theorem find_dns_record_none_of_no_match (name record_type : String)
    (records : List Record)
    (h : ∀ x ∈ records, ¬(x.name = name ∧ x.type = record_type)) :
    find_dns_record name record_type records = none := by
  induction records with
  | nil => rfl
  | cons a rest ih =>
      rw [find_dns_record, if_neg (h a (List.mem_cons_self a rest))]
      exact ih (fun x hx => h x (List.mem_cons_of_mem a hx))

/-- C2: when the fetched record set contains a record matching the requested
name with type "A" whose content equals the requested IP and whose proxied
flag equals the requested boolean (and, per the §3 invariant the program
relies on, no other record matches), the add workflow issues no mutation
call at all (its only network call is the initial list fetch), succeeds, and
prints the no-op message. -/
theorem add_identical_is_noop (zone_id : String) (args : AddArgs) (records : List Record)
    (createOutcome updateOutcome : ApiOutcome Record) (r : Record)
    (hmem : r ∈ records) (hname : r.name = args.record_name) (htype : r.type = "A")
    (huniq : ∀ x ∈ records, x.name = args.record_name ∧ x.type = "A" → x = r)
    (hcontent : r.content = args.ip_address)
    (hproxied : r.proxied = some args.proxy) :
    (handle_add_or_update zone_id args (.success records) createOutcome
        updateOutcome).1.calls = [ApiCall.list zone_id] ∧
    (∀ c ∈ (handle_add_or_update zone_id args (.success records) createOutcome
        updateOutcome).1.calls, c.isMutation = false) ∧
    (handle_add_or_update zone_id args (.success records) createOutcome
        updateOutcome).2 = .ok () ∧
    "Record already exists with the correct IP and proxy status. No changes needed." ∈
      (handle_add_or_update zone_id args (.success records) createOutcome
        updateOutcome).1.out := by
  have hfind : find_dns_record args.record_name "A" records = some r :=
    find_dns_record_of_mem_unique _ _ _ _ hmem hname htype huniq
  simp only [handle_add_or_update, get_all_dns_records, hfind]
  rw [if_pos ⟨hcontent, hproxied⟩]
  simp [ApiCall.isMutation]

/-- Witness for C2: adding `www.example.com -> 1.2.3.4` (proxy off) against
`[recA]`, which already holds exactly that record, makes no mutation call. -/
theorem add_identical_is_noop_witness :
    (handle_add_or_update "zone1" ⟨"www.example.com", "1.2.3.4", false⟩ (.success [recA])
        (.apiError "unused") (.apiError "unused")).1.calls = [ApiCall.list "zone1"] ∧
    (∀ c ∈ (handle_add_or_update "zone1" ⟨"www.example.com", "1.2.3.4", false⟩
        (.success [recA]) (.apiError "unused") (.apiError "unused")).1.calls,
      c.isMutation = false) ∧
    (handle_add_or_update "zone1" ⟨"www.example.com", "1.2.3.4", false⟩ (.success [recA])
        (.apiError "unused") (.apiError "unused")).2 = .ok () ∧
    "Record already exists with the correct IP and proxy status. No changes needed." ∈
      (handle_add_or_update "zone1" ⟨"www.example.com", "1.2.3.4", false⟩ (.success [recA])
        (.apiError "unused") (.apiError "unused")).1.out :=
  add_identical_is_noop "zone1" ⟨"www.example.com", "1.2.3.4", false⟩ [recA]
    (.apiError "unused") (.apiError "unused") recA (by decide) (by decide) (by decide)
    (by decide) (by decide) (by decide)

/-- C3: when the fetched record set contains a record matching the requested
name with type "A" whose content differs from the requested IP (and, per the
§3 invariant, no other record matches), the add workflow issues exactly one
update call and no create call, and the update call carries the existing
record's identifier. -/
theorem add_different_content_updates (zone_id : String) (args : AddArgs)
    (records : List Record) (createOutcome updateOutcome : ApiOutcome Record) (r : Record)
    (hmem : r ∈ records) (hname : r.name = args.record_name) (htype : r.type = "A")
    (huniq : ∀ x ∈ records, x.name = args.record_name ∧ x.type = "A" → x = r)
    (hcontent : r.content ≠ args.ip_address) :
    (handle_add_or_update zone_id args (.success records) createOutcome
        updateOutcome).1.calls.filter ApiCall.isMutation =
      [ApiCall.update zone_id r.id "A" args.record_name args.ip_address args.proxy] ∧
    (handle_add_or_update zone_id args (.success records) createOutcome
        updateOutcome).1.calls.filter ApiCall.isCreate = [] := by
  have hfind : find_dns_record args.record_name "A" records = some r :=
    find_dns_record_of_mem_unique _ _ _ _ hmem hname htype huniq
  have hcond : ¬(r.content = args.ip_address ∧ r.proxied = some args.proxy) :=
    fun hc => hcontent hc.1
  simp only [handle_add_or_update, get_all_dns_records, hfind]
  rw [if_neg hcond]
  cases updateOutcome <;>
    simp [update_dns_record, ApiCall.isMutation, ApiCall.isCreate, ApiCall.isUpdate]

/-- Witness for C3: adding `www.example.com -> 9.9.9.9` against `[recA]`
(whose content is `1.2.3.4`) issues exactly one update call bearing
`recA.id = "id-1"`. -/
theorem add_different_content_updates_witness :
    (handle_add_or_update "zone1" ⟨"www.example.com", "9.9.9.9", false⟩ (.success [recA])
        (.apiError "unused") (.success recA)).1.calls.filter ApiCall.isMutation =
      [ApiCall.update "zone1" "id-1" "A" "www.example.com" "9.9.9.9" false] ∧
    (handle_add_or_update "zone1" ⟨"www.example.com", "9.9.9.9", false⟩ (.success [recA])
        (.apiError "unused") (.success recA)).1.calls.filter ApiCall.isCreate = [] :=
  add_different_content_updates "zone1" ⟨"www.example.com", "9.9.9.9", false⟩ [recA]
    (.apiError "unused") (.success recA) recA (by decide) (by decide) (by decide)
    (by decide) (by decide)

/-! ## C4: the add workflow with no matching record -/

/-- C4: when no record in the fetched set matches the requested name with
type "A" (in particular for the empty set), the add workflow issues exactly
one create call and no update call; and a command line `add name ip` without
the `--proxy` flag parses with `proxy = false`, so the create call then
carries `proxied = false`. -/
theorem add_no_match_creates (zone_id : String) (args : AddArgs) (records : List Record)
    (createOutcome updateOutcome : ApiOutcome Record)
    (hnone : ∀ x ∈ records, ¬(x.name = args.record_name ∧ x.type = "A")) :
    ((handle_add_or_update zone_id args (.success records) createOutcome
        updateOutcome).1.calls.filter ApiCall.isMutation =
      [ApiCall.create zone_id "A" args.record_name args.ip_address args.proxy] ∧
     (handle_add_or_update zone_id args (.success records) createOutcome
        updateOutcome).1.calls.filter ApiCall.isUpdate = []) ∧
    (args.record_name ≠ "--proxy" → args.ip_address ≠ "--proxy" →
      parse_args ["add", args.record_name, args.ip_address] =
        some (.add ⟨args.record_name, args.ip_address, false⟩)) := by
  have hfind : find_dns_record args.record_name "A" records = none :=
    find_dns_record_none_of_no_match _ _ _ hnone
  constructor
  · simp only [handle_add_or_update, get_all_dns_records, hfind]
    cases createOutcome <;>
      simp [create_dns_record, ApiCall.isMutation, ApiCall.isCreate, ApiCall.isUpdate]
  · intro h1 h2
    simp [parse_args, h1, h2, Ne.symm h1, Ne.symm h2]

/-- Witness for C4: `add host.example.com 1.2.3.4` (no `--proxy`) against the
empty record set issues exactly one create call with `proxied = false`. -/
theorem add_no_match_creates_witness :
    ((handle_add_or_update "zone1" ⟨"host.example.com", "1.2.3.4", false⟩ (.success [])
        (.success recA) (.apiError "unused")).1.calls.filter ApiCall.isMutation =
      [ApiCall.create "zone1" "A" "host.example.com" "1.2.3.4" false] ∧
     (handle_add_or_update "zone1" ⟨"host.example.com", "1.2.3.4", false⟩ (.success [])
        (.success recA) (.apiError "unused")).1.calls.filter ApiCall.isUpdate = []) ∧
    ("host.example.com" ≠ "--proxy" → "1.2.3.4" ≠ "--proxy" →
      parse_args ["add", "host.example.com", "1.2.3.4"] =
        some (.add ⟨"host.example.com", "1.2.3.4", false⟩)) :=
  add_no_match_creates "zone1" ⟨"host.example.com", "1.2.3.4", false⟩ []
    (.success recA) (.apiError "unused") (by decide)

/-! ## C10: unset proxied flag defeats the no-op branch -/

/-- C10: when the first matching record's `proxied` field is unset (`None` in
Python), the no-op branch is not taken even though the record's content
equals the requested IP and `--proxy` is off: `None == False` is false in
Python, so the workflow issues an update call instead. -/
theorem add_proxied_none_never_noop (zone_id : String) (args : AddArgs)
    (records : List Record) (createOutcome updateOutcome : ApiOutcome Record) (r : Record)
    (hfind : find_dns_record args.record_name "A" records = some r)
    (hcontent : r.content = args.ip_address)
    (hproxied : r.proxied = none)
    (hproxy : args.proxy = false) :
    (handle_add_or_update zone_id args (.success records) createOutcome
        updateOutcome).1.calls.filter ApiCall.isMutation =
      [ApiCall.update zone_id r.id "A" args.record_name args.ip_address args.proxy] ∧
    (handle_add_or_update zone_id args (.success records) createOutcome
        updateOutcome).2 = StepResult.discard
      (update_dns_record zone_id r.id "A" args.record_name args.ip_address args.proxy
        updateOutcome).2 := by
  have hcond : ¬(r.content = args.ip_address ∧ r.proxied = some args.proxy) := by
    rw [hproxied]
    exact fun hc => Option.noConfusion hc.2
  simp only [handle_add_or_update, get_all_dns_records, hfind]
  rw [if_neg hcond]
  cases updateOutcome <;>
    simp [update_dns_record, ApiCall.isMutation, StepResult.discard]

/-- Witness for C10: adding `api.example.com -> 5.6.7.8` (proxy off) against
`[recC]`, whose content already equals `5.6.7.8` but whose `proxied` is
unset, still issues an update call. -/
theorem add_proxied_none_never_noop_witness :
    (handle_add_or_update "zone1" ⟨"api.example.com", "5.6.7.8", false⟩ (.success [recC])
        (.apiError "unused") (.success recC)).1.calls.filter ApiCall.isMutation =
      [ApiCall.update "zone1" "id-3" "A" "api.example.com" "5.6.7.8" false] ∧
    (handle_add_or_update "zone1" ⟨"api.example.com", "5.6.7.8", false⟩ (.success [recC])
        (.apiError "unused") (.success recC)).2 = StepResult.discard
      (update_dns_record "zone1" "id-3" "A" "api.example.com" "5.6.7.8" false
        (.success recC)).2 :=
  add_proxied_none_never_noop "zone1" ⟨"api.example.com", "5.6.7.8", false⟩ [recC]
    (.apiError "unused") (.success recC) recC (by decide) (by decide) (by decide) (by decide)

/-! ## C5: the rm workflow with no matching record -/

/-- C5: when no record in the fetched set matches the requested name with
type "A", the rm workflow exits with status 1 after printing to the error
stream a diagnostic naming the absent record, and issues no delete call (its
only network call is the list fetch). -/
theorem rm_not_found_fails (zone_id record_name : String) (records : List Record)
    (deleteOutcome : ApiOutcome (Option RecordDeleteResponse))
    (hnone : ∀ x ∈ records, ¬(x.name = record_name ∧ x.type = "A")) :
    (handle_remove zone_id record_name (.success records) deleteOutcome).2 = .exited 1 ∧
    s!"Error: No A record found with the name \x27{record_name}\x27. Nothing to delete." ∈
      (handle_remove zone_id record_name (.success records) deleteOutcome).1.err ∧
    (handle_remove zone_id record_name (.success records) deleteOutcome).1.calls.filter
      ApiCall.isMutation = [] ∧
    (handle_remove zone_id record_name (.success records) deleteOutcome).1.calls =
      [ApiCall.list zone_id] := by
  have hfind : find_dns_record record_name "A" records = none :=
    find_dns_record_none_of_no_match _ _ _ hnone
  simp only [handle_remove, get_all_dns_records, hfind]
  simp [ApiCall.isMutation]
  rfl

/-- Witness for C5: `rm missing.example.com` against `[recA]` (no record of
that name) exits 1 with the diagnostic and makes no delete call. -/
theorem rm_not_found_fails_witness :
    (handle_remove "zone1" "missing.example.com" (.success [recA])
      (.success (some ⟨"id-1"⟩))).2 = .exited 1 ∧
    "Error: No A record found with the name \x27missing.example.com\x27. Nothing to delete." ∈
      (handle_remove "zone1" "missing.example.com" (.success [recA])
        (.success (some ⟨"id-1"⟩))).1.err ∧
    (handle_remove "zone1" "missing.example.com" (.success [recA])
      (.success (some ⟨"id-1"⟩))).1.calls.filter ApiCall.isMutation = [] ∧
    (handle_remove "zone1" "missing.example.com" (.success [recA])
      (.success (some ⟨"id-1"⟩))).1.calls = [ApiCall.list "zone1"] :=
  rm_not_found_fails "zone1" "missing.example.com" [recA] (.success (some ⟨"id-1"⟩))
    (by decide)

/-! ## C6: required environment variables fail fast -/

/-- `True` (as a boolean) when the environment variable `key` is unset,
empty, or whitespace-only — the condition `get_env` rejects. -/
def env_blank (env : String → Option String) (key : String) : Bool :=
  match env key with
  | none => true
  | some value => pyStrip value == ""

/-- A blank variable makes `get_env` print the diagnostic naming it to the
error stream and exit 1. -/
theorem get_env_blank_exits (env : String → Option String) (key : String)
    (h : env_blank env key = true) :
    get_env env key =
      (errLine s!"Error: Environment variable {key} cannot be empty.", .exited 1) := by
  unfold env_blank at h
  unfold get_env
  cases henv : env key with
  | none => rfl
  | some v =>
      rw [henv] at h
      simp only [beq_iff_eq] at h
      simp [h]

/-- A non-blank variable makes `get_env` return its value with no output. -/
theorem get_env_nonblank_ok (env : String → Option String) (key : String)
    (h : env_blank env key = false) :
    ∃ v, get_env env key = (Trace.nil, .ok v) := by
  unfold env_blank at h
  unfold get_env
  cases henv : env key with
  | none => rw [henv] at h; exact absurd h (by simp)
  | some v =>
      rw [henv] at h
      simp only [beq_eq_false_iff_ne, ne_eq] at h
      exact ⟨v, by simp [h]⟩

/-- C6: whenever any of the three required environment variables is unset,
empty, or whitespace-only, the process prints a diagnostic naming a blank
variable to the error stream and exits 1 without issuing any network call,
whatever the command line and whatever the provider would have answered. -/
theorem missing_env_fails_fast (env : String → Option String) (argv : List String)
    (api : ApiBehavior)
    (h : env_blank env "CLOUDFLARE_EMAIL" = true ∨ env_blank env "CLOUDFLARE_API_KEY" = true ∨
      env_blank env "ZONE_ID" = true) :
    ∃ key, (key = "CLOUDFLARE_EMAIL" ∨ key = "CLOUDFLARE_API_KEY" ∨ key = "ZONE_ID") ∧
      env_blank env key = true ∧
      (main env argv api).2 = .exited 1 ∧
      (main env argv api).1.calls = [] ∧
      s!"Error: Environment variable {key} cannot be empty." ∈ (main env argv api).1.err := by
  by_cases h1 : env_blank env "CLOUDFLARE_EMAIL" = true
  · refine ⟨"CLOUDFLARE_EMAIL", Or.inl rfl, h1, ?_⟩
    simp [main, load_config, get_env_blank_exits env _ h1]
  · have h1f : env_blank env "CLOUDFLARE_EMAIL" = false := by
      simpa using h1
    obtain ⟨v1, hv1⟩ := get_env_nonblank_ok env _ h1f
    by_cases h2 : env_blank env "CLOUDFLARE_API_KEY" = true
    · refine ⟨"CLOUDFLARE_API_KEY", Or.inr (Or.inl rfl), h2, ?_⟩
      simp [main, load_config, hv1, get_env_blank_exits env _ h2, Trace.nil]
    · have h2f : env_blank env "CLOUDFLARE_API_KEY" = false := by
        simpa using h2
      obtain ⟨v2, hv2⟩ := get_env_nonblank_ok env _ h2f
      have h3 : env_blank env "ZONE_ID" = true := by
        rcases h with h | h | h
        · exact absurd h h1
        · exact absurd h h2
        · exact h
      refine ⟨"ZONE_ID", Or.inr (Or.inr rfl), h3, ?_⟩
      simp [main, load_config, hv1, hv2, get_env_blank_exits env _ h3, Trace.nil]

/-- A concrete environment whose API-key variable is whitespace-only. -/
def envSample : String → Option String :=
  fun key =>
    if key = "CLOUDFLARE_EMAIL" then some "user@example.com"
    else if key = "CLOUDFLARE_API_KEY" then some "   "
    else if key = "ZONE_ID" then some "zone1"
    else none

/-- A concrete provider oracle (never consulted in the C6 witness). -/
def apiSample : ApiBehavior :=
  { listOutcome := .success [], createOutcome := .apiError "unused",
    updateOutcome := .apiError "unused", deleteOutcome := .apiError "unused" }

/-- Witness for C6: with a whitespace-only `CLOUDFLARE_API_KEY`, `main`
exits 1 naming a blank variable and makes zero network calls. -/
theorem missing_env_fails_fast_witness :
    ∃ key, (key = "CLOUDFLARE_EMAIL" ∨ key = "CLOUDFLARE_API_KEY" ∨ key = "ZONE_ID") ∧
      env_blank envSample key = true ∧
      (main envSample ["list"] apiSample).2 = .exited 1 ∧
      (main envSample ["list"] apiSample).1.calls = [] ∧
      s!"Error: Environment variable {key} cannot be empty." ∈
        (main envSample ["list"] apiSample).1.err :=
  missing_env_fails_fast envSample ["list"] apiSample (Or.inr (Or.inl (by decide)))

/-! ## C7: the list workflow -/

/-- Look up a key in a JSON object (none for non-objects or absent keys). -/
def Json.getField (j : Json) (key : String) : Option Json :=
  match j with
  | .obj fields => (fields.find? (fun f => f.fst == key)).map Prod.snd
  | _ => none

/-- C7: on an empty fetched record set, `handle_list` prints the literal
"No DNS records found for this zone." line instead of an empty array; on a
non-empty set it prints to standard output the serialized JSON array of the
per-record dictionaries, one element per fetched record; and every element
carries exactly the fields id, type, name, content, proxied, ttl,
created_on, modified_on, with each timestamp rendered via `isoformat()`
when present and as the absent-marker `null` when unset. -/
theorem list_output_shape (zone_id : String) (records : List Record) :
    (records = [] →
      (handle_list zone_id (.success records)).1.out =
        [s!"Fetching existing records for zone {zone_id}...",
          "No DNS records found for this zone."] ∧
      (handle_list zone_id (.success records)).2 = .ok ()) ∧
    (records ≠ [] →
      (handle_list zone_id (.success records)).1.out =
        [s!"Fetching existing records for zone {zone_id}...",
          json_dumps (Json.arr (records.map output_record))] ∧
      (records.map output_record).length = records.length ∧
      (handle_list zone_id (.success records)).2 = .ok ()) ∧
    (∀ r : Record,
      (output_record r).keys =
        ["id", "type", "name", "content", "proxied", "ttl", "created_on", "modified_on"] ∧
      (∀ d, r.created_on = some d →
        (output_record r).getField "created_on" = some (Json.str d.isoformat)) ∧
      (r.created_on = none → (output_record r).getField "created_on" = some Json.null) ∧
      (∀ d, r.modified_on = some d →
        (output_record r).getField "modified_on" = some (Json.str d.isoformat)) ∧
      (r.modified_on = none → (output_record r).getField "modified_on" = some Json.null)) := by
  refine ⟨?_, ?_, ?_⟩
  · intro h
    subst h
    simp [handle_list, get_all_dns_records]
  · intro h
    constructor
    · simp [handle_list, get_all_dns_records, List.isEmpty_iff, h]
    · simp [handle_list, get_all_dns_records, List.isEmpty_iff, h]
  · intro r
    refine ⟨rfl, ?_, ?_, ?_, ?_⟩
    · intro d hd; simp [output_record, Json.getField, hd]
    · intro hd; simp [output_record, Json.getField, hd]
    · intro d hd; simp [output_record, Json.getField, hd]
    · intro hd; simp [output_record, Json.getField, hd]

/-- Witness for C7: listing the singleton set `[recC]` prints the serialized
one-element array, and `recC`'s dictionary has exactly the eight fields with
its set `created_on` rendered via `isoformat()`. -/
theorem list_output_shape_witness :
    ((handle_list "zone1" (.success [recC])).1.out =
      ["Fetching existing records for zone zone1...",
        json_dumps (Json.arr [output_record recC])] ∧
      ([recC].map output_record).length = [recC].length ∧
      (handle_list "zone1" (.success [recC])).2 = .ok ()) ∧
    ((output_record recC).keys =
      ["id", "type", "name", "content", "proxied", "ttl", "created_on", "modified_on"] ∧
      (output_record recC).getField "created_on" =
        some (Json.str "2024-01-01T00:00:00+00:00")) :=
  ⟨(list_output_shape "zone1" [recC]).2.1 (by decide),
    ((list_output_shape "zone1" [recC]).2.2 recC).1,
    ((list_output_shape "zone1" [recC]).2.2 recC).2.1 ⟨"2024-01-01T00:00:00+00:00"⟩ rfl⟩

/-! ## C8: soft delete-response mismatch, fatal provider errors -/

/-- C8: a delete call that completes but returns a falsy response or an
identifier different from the request prints a warning, returns `false` to
its caller and does not terminate the process; whereas an `APIError` or
unexpected exception in delete, create, update, or the list fetch is fatal —
a diagnostic on the error stream and exit 1. -/
theorem delete_soft_others_fatal (zone_id dns_record_id record_name : String) :
    (∀ res : Option RecordDeleteResponse,
      (res = none ∨ ∃ r, res = some r ∧ r.id ≠ dns_record_id) →
      (delete_dns_record zone_id dns_record_id record_name (.success res)).2 = .ok false ∧
      s!"Warning: Delete operation completed but response format was unexpected for {record_name}. Please verify." ∈
        (delete_dns_record zone_id dns_record_id record_name (.success res)).1.err) ∧
    (∀ e, (delete_dns_record zone_id dns_record_id record_name (.apiError e)).2 = .exited 1 ∧
      s!"Error deleting DNS record: {e}" ∈
        (delete_dns_record zone_id dns_record_id record_name (.apiError e)).1.err) ∧
    (∀ e, (delete_dns_record zone_id dns_record_id record_name
        (.unexpectedError e)).2 = .exited 1 ∧
      s!"An unexpected error occurred while deleting DNS record: {e}" ∈
        (delete_dns_record zone_id dns_record_id record_name (.unexpectedError e)).1.err) ∧
    (∀ (record_type name content e : String) (proxied : Bool),
      (create_dns_record zone_id record_type name content proxied (.apiError e)).2 = .exited 1 ∧
      s!"Error creating DNS record: {e}" ∈
        (create_dns_record zone_id record_type name content proxied (.apiError e)).1.err ∧
      (create_dns_record zone_id record_type name content proxied
        (.unexpectedError e)).2 = .exited 1) ∧
    (∀ (record_type name content e : String) (proxied : Bool),
      (update_dns_record zone_id dns_record_id record_type name content proxied
        (.apiError e)).2 = .exited 1 ∧
      s!"Error updating DNS record: {e}" ∈
        (update_dns_record zone_id dns_record_id record_type name content proxied
          (.apiError e)).1.err ∧
      (update_dns_record zone_id dns_record_id record_type name content proxied
        (.unexpectedError e)).2 = .exited 1) ∧
    (∀ e, (get_all_dns_records zone_id (.apiError e)).2 = .exited 1 ∧
      s!"Error fetching DNS records: {e}" ∈ (get_all_dns_records zone_id (.apiError e)).1.err ∧
      (get_all_dns_records zone_id (.unexpectedError e)).2 = .exited 1) := by
  refine ⟨?_, ?_, ?_, ?_, ?_, ?_⟩
  · intro res hres
    rcases hres with rfl | ⟨r, rfl, hr⟩
    · simp [delete_dns_record]
    · simp [delete_dns_record, hr]
  · intro e; simp [delete_dns_record]
  · intro e; simp [delete_dns_record]
  · intro record_type name content e proxied; simp [create_dns_record]
  · intro record_type name content e proxied; simp [update_dns_record]
  · intro e; simp [get_all_dns_records]

/-- Witness for C8: a delete against record `id-1` answered with a falsy
response returns `false` and prints the warning instead of terminating. -/
theorem delete_soft_others_fatal_witness :
    (delete_dns_record "zone1" "id-1" "www.example.com" (.success none)).2 = .ok false ∧
    "Warning: Delete operation completed but response format was unexpected for www.example.com. Please verify." ∈
      (delete_dns_record "zone1" "id-1" "www.example.com" (.success none)).1.err :=
  (delete_soft_others_fatal "zone1" "id-1" "www.example.com").1 none (Or.inl rfl)

/-! ## C9: which stream each message goes to -/

/-- C9 does not hold as stated: when a create fails with an `APIError` whose
text contains "already exists", the hint diagnostic is printed WITHOUT
`file=sys.stderr` (dns.py:57), i.e. to standard output — here shown at a
concrete input, where the hint is in the standard-output lines and not among
the error-stream lines. -/
theorem create_hint_on_stdout :
    "Hint: A record with this name and type might already exist." ∈
      (create_dns_record "zone1" "A" "www.example.com" "1.2.3.4" false
        (.apiError "record already exists")).1.out ∧
    "Hint: A record with this name and type might already exist." ∉
      (create_dns_record "zone1" "A" "www.example.com" "1.2.3.4" false
        (.apiError "record already exists")).1.err ∧
    (create_dns_record "zone1" "A" "www.example.com" "1.2.3.4" false
      (.apiError "record already exists")).1.err =
      ["Error creating DNS record: record already exists"] := by decide

/-- C9 amended: every error-path diagnostic is written to the error stream
and normal output (including the list payload) to standard output, with one
exception — the hint printed when a create fails because the record already
exists goes to standard output. -/
theorem diagnostics_streams_amended (zone_id dns_record_id record_name : String) :
    (∀ e, (get_all_dns_records zone_id (.apiError e)).1.err =
        [s!"Error fetching DNS records: {e}"] ∧
      (get_all_dns_records zone_id (.apiError e)).1.out = [] ∧
      (get_all_dns_records zone_id (.unexpectedError e)).1.err =
        [s!"An unexpected error occurred while fetching DNS records: {e}"] ∧
      (get_all_dns_records zone_id (.unexpectedError e)).1.out = []) ∧
    (∀ (record_type name content e : String) (proxied : Bool),
      (create_dns_record zone_id record_type name content proxied (.apiError e)).1.err =
        [s!"Error creating DNS record: {e}"] ∧
      (strContains e "already exists" = true →
        "Hint: A record with this name and type might already exist." ∈
          (create_dns_record zone_id record_type name content proxied (.apiError e)).1.out) ∧
      (create_dns_record zone_id record_type name content proxied (.unexpectedError e)).1.err =
        [s!"An unexpected error occurred while creating DNS record: {e}"]) ∧
    (∀ (record_type name content e : String) (proxied : Bool),
      (update_dns_record zone_id dns_record_id record_type name content proxied
        (.apiError e)).1.err = [s!"Error updating DNS record: {e}"] ∧
      (update_dns_record zone_id dns_record_id record_type name content proxied
        (.unexpectedError e)).1.err =
        [s!"An unexpected error occurred while updating DNS record: {e}"]) ∧
    (∀ e, (delete_dns_record zone_id dns_record_id record_name (.apiError e)).1.err =
        [s!"Error deleting DNS record: {e}"] ∧
      (delete_dns_record zone_id dns_record_id record_name (.unexpectedError e)).1.err =
        [s!"An unexpected error occurred while deleting DNS record: {e}"]) ∧
    ((delete_dns_record zone_id dns_record_id record_name (.success none)).1.err =
      [s!"Warning: Delete operation completed but response format was unexpected for {record_name}. Please verify."]) ∧
    (∀ (rec : Record),
      (create_dns_record zone_id "A" record_name rec.content rec.proxied.isSome
        (.success rec)).1.err = [] ∧
      (update_dns_record zone_id dns_record_id "A" record_name rec.content
        rec.proxied.isSome (.success rec)).1.err = []) ∧
    (∀ res, (delete_dns_record zone_id dns_record_id record_name
        (.success (some res))).1.err =
      (if res.id = dns_record_id then []
        else [s!"Warning: Delete operation completed but response format was unexpected for {record_name}. Please verify."])) ∧
    (∀ records : List Record, (handle_list zone_id (.success records)).1.err = []) := by
  refine ⟨?_, ?_, ?_, ?_, ?_, ?_, ?_, ?_⟩
  · intro e; simp [get_all_dns_records]
  · intro record_type name content e proxied
    refine ⟨by simp [create_dns_record], ?_, by simp [create_dns_record]⟩
    intro hsub
    simp [create_dns_record, hsub]
  · intro record_type name content e proxied; simp [update_dns_record]
  · intro e; simp [delete_dns_record]
  · simp [delete_dns_record]
  · intro rec; simp [create_dns_record, update_dns_record]
  · intro res
    by_cases hid : res.id = dns_record_id
    · simp [delete_dns_record, hid]
    · simp [delete_dns_record, hid]
  · intro records
    rcases records with _ | ⟨r, rest⟩
    · simp [handle_list, get_all_dns_records]
    · simp [handle_list, get_all_dns_records]

/-- Witness for the amended C9: at a concrete create failure whose message
contains "already exists", the error line is on the error stream and the
hint reaches standard output. -/
theorem diagnostics_streams_amended_witness :
    (create_dns_record "zone1" "A" "www.example.com" "1.2.3.4" false
      (.apiError "record already exists")).1.err =
      ["Error creating DNS record: record already exists"] ∧
    "Hint: A record with this name and type might already exist." ∈
      (create_dns_record "zone1" "A" "www.example.com" "1.2.3.4" false
        (.apiError "record already exists")).1.out :=
  ⟨((diagnostics_streams_amended "zone1" "id-1" "www.example.com").2.1 "A"
      "www.example.com" "1.2.3.4" "record already exists" false).1,
    ((diagnostics_streams_amended "zone1" "id-1" "www.example.com").2.1 "A"
      "www.example.com" "1.2.3.4" "record already exists" false).2.1 (by decide)⟩

end Nexora
